import Mathlib

/-!
Verification of the agricultural traceability system (lot → transformation →
logistics). Shallow embedding of the business-rule validators
(business_logic/validaciones.py), the chain coordinator
(ServicioTrazabilidad), the diagnostic trace view (views.trazabilidad_completa)
and the traceability-code assignment hook (models.Logistica.save).

Modelling conventions:
- Django Decimal temperatures are embedded as exact rationals (ℚ).
- datetimes are integers counting microseconds (Python datetime resolution);
  dates are integers counting days; the date component of a datetime is
  floor division by the number of microseconds in a day.
- a validator that raises ValidacionTrazabilidadError is embedded as a
  function into Option RazonValidacion: none means success, some r means the
  first raised error, tagged by which raise statement fired.
- the implicit clock timezone.now().date() in validar_fecha_cosecha is passed
  in as an explicit parameter hoy, and the random str(uuid.uuid4()) consumed
  by Logistica.save is passed in as an explicit string parameter.
-/

/-- Tags, one per raise site of ValidacionTrazabilidadError in
business_logic/validaciones.py, identifying which rule fired. -/
inductive RazonValidacion where
  | codigoObligatorio
  | codigoCorto
  | codigoNoLetra
  | fechaCosechaFutura
  | tempLavadoBaja
  | tempLavadoAlta
  | tempMinBaja
  | tempMaxAlta
  | tempPromBaja
  | tempPromAlta
  | tempMinMayorMax
  | tempPromFueraRango
  | entregaAntesSalida
  | transporteExcede72h
  | transporteMenor1min
  | transformacionNoDelLote
  | logisticaNoDeTransformacion
  | lavadoAntesCosecha
  | salidaAntesControl
  deriving DecidableEq, Repr

/-- ValidadorTransformacion.TEMP_MIN_LAVADO = 10.0 -/
def TEMP_MIN_LAVADO : ℚ := 10

/-- ValidadorTransformacion.TEMP_MAX_LAVADO = 40.0 -/
def TEMP_MAX_LAVADO : ℚ := 40

/-- ValidadorLogistica.TEMP_MIN_TRANSPORTE = 2.0 -/
def TEMP_MIN_TRANSPORTE : ℚ := 2

/-- ValidadorLogistica.TEMP_MAX_TRANSPORTE = 8.0 -/
def TEMP_MAX_TRANSPORTE : ℚ := 8

/-- Models Python str.isalpha on one character (true on the Unicode letter
categories). Exact on the ASCII and Latin-1 ranges, which cover every lot
code considered in this development; code points above U+00FF are not
classified here (an under-approximation of the full Unicode letter table,
irrelevant to the inputs below). -/
def pyIsAlpha (c : Char) : Bool :=
  c.isAlpha
    || (0xC0 ≤ c.toNat && c.toNat ≤ 0xFF && c.toNat != 0xD7 && c.toNat != 0xF7)
    || c.toNat == 0xAA || c.toNat == 0xB5 || c.toNat == 0xBA

/-- ValidadorLoteCultivo.validar_fecha_cosecha. The source compares
fecha_cosecha against timezone.now().date(); the latter is the explicit
parameter hoy (a day number). -/
def validar_fecha_cosecha (fecha_cosecha hoy : ℤ) : Option RazonValidacion :=
  if fecha_cosecha > hoy then some .fechaCosechaFutura
  else none

/-- ValidadorLoteCultivo.validar_codigo_lote. Python truthiness of the string
(`if not codigo_lote`) is emptiness; codigo_lote[0] is the first character. -/
def validar_codigo_lote (codigo_lote : String) : Option RazonValidacion :=
  if codigo_lote = "" then some .codigoObligatorio
  else if codigo_lote.length < 3 then some .codigoCorto
  else if !pyIsAlpha (codigo_lote.get 0) then some .codigoNoLetra
  else none

/-- ValidadorTransformacion.validar_temperatura_lavado. -/
def validar_temperatura_lavado (temperatura : ℚ) : Option RazonValidacion :=
  if temperatura < TEMP_MIN_LAVADO then some .tempLavadoBaja
  else if temperatura > TEMP_MAX_LAVADO then some .tempLavadoAlta
  else none

/-- ValidadorLogistica.validar_temperaturas_transporte, with its six checks in
source order. -/
def validar_temperaturas_transporte (temp_min temp_max temp_prom : ℚ) :
    Option RazonValidacion :=
  if temp_min < TEMP_MIN_TRANSPORTE then some .tempMinBaja
  else if temp_max > TEMP_MAX_TRANSPORTE then some .tempMaxAlta
  else if temp_prom < TEMP_MIN_TRANSPORTE then some .tempPromBaja
  else if temp_prom > TEMP_MAX_TRANSPORTE then some .tempPromAlta
  else if temp_min > temp_max then some .tempMinMayorMax
  else if temp_prom < temp_min ∨ temp_prom > temp_max then some .tempPromFueraRango
  else none

/-- timedelta(minutes=1) in microseconds. -/
def unMinuto : ℤ := 60000000

/-- timedelta(hours=72) in microseconds. -/
def setentaYDosHoras : ℤ := 259200000000

/-- ValidadorLogistica.validar_fechas_transporte over datetimes in
microseconds. -/
def validar_fechas_transporte (fecha_salida fecha_entrega : ℤ) :
    Option RazonValidacion :=
  if fecha_entrega < fecha_salida then some .entregaAntesSalida
  else if fecha_entrega - fecha_salida > setentaYDosHoras then some .transporteExcede72h
  else if fecha_entrega - fecha_salida < unMinuto then some .transporteMenor1min
  else none

/-- Microseconds in one day, used to take the date component of a datetime. -/
def microsPorDia : ℤ := 86400000000

/-- Python datetime.date(): the day number a microsecond instant falls in. -/
def fechaDe (dt : ℤ) : ℤ := Int.fdiv dt microsPorDia

/-- The fields of models.LoteCultivo used by the claims. fecha_cosecha is a
DateField (day number). -/
structure LoteCultivo where
  id : ℤ
  codigo_lote : String
  fecha_cosecha : ℤ
  deriving DecidableEq, Repr

/-- The fields of models.Transformacion used by the claims. lote_id is the
foreign key to LoteCultivo; both datetimes are in microseconds. -/
structure Transformacion where
  id : ℤ
  lote_id : ℤ
  fecha_lavado : ℤ
  fecha_control_calidad : ℤ
  deriving DecidableEq, Repr

/-- The fields of models.Logistica used by the claims. transformacion_id is
the foreign key to Transformacion; codigo_trazabilidad is nullable. -/
structure Logistica where
  transformacion_id : ℤ
  estado : String
  codigo_trazabilidad : Option String
  fecha_salida : ℤ
  fecha_entrega : ℤ
  deriving DecidableEq, Repr

/-- ServicioTrazabilidad.validar_trazabilidad_completa: two referential checks
then two temporal checks, in source order, first failure wins. -/
def validar_trazabilidad_completa (lote : LoteCultivo) (transformacion : Transformacion)
    (logistica : Logistica) : Option RazonValidacion :=
  if transformacion.lote_id ≠ lote.id then some .transformacionNoDelLote
  else if logistica.transformacion_id ≠ transformacion.id then some .logisticaNoDeTransformacion
  else if fechaDe transformacion.fecha_lavado < lote.fecha_cosecha then some .lavadoAntesCosecha
  else if logistica.fecha_salida < transformacion.fecha_control_calidad then some .salidaAntesControl
  else none

/-- The error-collection loop of views.trazabilidad_completa: given the lot,
the queryset lote.transformaciones.all() and the queryset
Logistica.objects.filter(transformacion__lote=lote), it runs the strict chain
check per pairing inside try/except, appending the caught error; the loop only
runs when both querysets are non-empty. -/
def trazabilidad_completa_errores (lote : LoteCultivo)
    (transformaciones : List Transformacion) (logisticas : List Logistica) :
    List RazonValidacion :=
  if transformaciones.isEmpty || logisticas.isEmpty then []
  else transformaciones.flatMap fun tr =>
    (logisticas.filter fun lg => lg.transformacion_id == tr.id).filterMap
      fun lg => validar_trazabilidad_completa lote tr lg

/-- Spec-side definition for C7: the full set of chain-invariant violations of
one (lote, transformacion, logistica) pairing, i.e. every one of the four
conditions of ServicioTrazabilidad.validar_trazabilidad_completa that is
violated, not only the first. -/
def violacionesCadena (lote : LoteCultivo) (transformacion : Transformacion)
    (logistica : Logistica) : List RazonValidacion :=
  (if transformacion.lote_id ≠ lote.id then [RazonValidacion.transformacionNoDelLote] else [])
    ++ (if logistica.transformacion_id ≠ transformacion.id then
          [RazonValidacion.logisticaNoDeTransformacion] else [])
    ++ (if fechaDe transformacion.fecha_lavado < lote.fecha_cosecha then
          [RazonValidacion.lavadoAntesCosecha] else [])
    ++ (if logistica.fecha_salida < transformacion.fecha_control_calidad then
          [RazonValidacion.salidaAntesControl] else [])

/-- Python truthiness test `not self.codigo_trazabilidad` on a nullable string
field: true when the field is null or the empty string. -/
def pyFalsyStr (o : Option String) : Bool :=
  match o with
  | none => true
  | some s => s.isEmpty

/-- Python str.replace with a one-character pattern: every occurrence of old
is replaced by rep, all other characters are kept verbatim in order. -/
def pyReplaceChar (old : Char) (rep : List Char) : List Char → List Char
  | [] => []
  | c :: cs => if c = old then rep ++ pyReplaceChar old rep cs
               else c :: pyReplaceChar old rep cs

/-- The sixteen characters str(uuid.uuid4()) draws its hexadecimal digits
from. -/
def hexMinusculas : List Char :=
  "0123456789abcdef".data

/-- str(uuid.uuid4())[:8].upper(): the first eight characters of the uuid
string, upper-cased. -/
def sufijoTrazabilidad (uuidStr : String) : String :=
  ⟨(uuidStr.data.take 8).map Char.toUpper⟩

/-- The f-string of Logistica.save: "TRZ-" + lote_codigo.replace('-','') +
"-" + str(uuid.uuid4())[:8].upper(). -/
def generarCodigoTrazabilidad (lote_codigo uuidStr : String) : String :=
  "TRZ-" ++ ⟨pyReplaceChar '-' [] lote_codigo.data⟩ ++ "-" ++ sufijoTrazabilidad uuidStr

/-- models.Logistica.save: when the code field is falsy and estado is
ENTREGADO, assign the generated code; in every case delegate to super().save.
lote_codigo stands for self.transformacion.lote.codigo_lote and uuidStr for
str(uuid.uuid4()). -/
def Logistica.save (lg : Logistica) (lote_codigo uuidStr : String) : Logistica :=
  if pyFalsyStr lg.codigo_trazabilidad && lg.estado == "ENTREGADO" then
    { lg with codigo_trazabilidad := some (generarCodigoTrazabilidad lote_codigo uuidStr) }
  else lg

/-- Concrete lot for the C5 witness: ids mismatch while temporal data also
disagrees. -/
def loteW5 : LoteCultivo := ⟨1, "LOT-A", 100⟩

/-- Concrete transformation for the C5 witness, referencing lot 2, washed on
day 0 (before the harvest on day 100). -/
def trW5 : Transformacion := ⟨7, 2, 0, 500⟩

/-- Concrete logistics record for the C5 witness, departing before quality
control. -/
def lgW5 : Logistica := ⟨7, "EN_TRANSITO", none, 400, 500⟩

/-- Concrete record for the C1 witness: delivered, no code yet. -/
def lgW1 : Logistica := ⟨5, "ENTREGADO", none, 0, 60000000⟩

/-- Concrete record for the C10 witness. -/
def lgW10 : Logistica := ⟨6, "ENTREGADO", none, 0, 60000000⟩

/-- Concrete lot for C7: harvest on day 100. -/
def loteC7 : LoteCultivo := ⟨1, "LOTE-C7", 100⟩

/-- Concrete transformation for C7: washed on day 0 (before harvest), quality
control at instant 500. -/
def trC7 : Transformacion := ⟨3, 1, 0, 500⟩

/-- Concrete logistics record for C7: departs at instant 400, before the
quality control of its transformation, so the pairing violates both temporal
chain conditions. -/
def lgC7 : Logistica := ⟨3, "EN_TRANSITO", none, 400, 99999999⟩

/-- C4: validar_temperatura_lavado succeeds iff 10.0 ≤ t ≤ 40.0; the bounds
10.0 and 40.0 themselves pass, while 9.99 and 40.01 fail. -/
theorem validar_temperatura_lavado_correcto :
    (∀ t : ℚ, validar_temperatura_lavado t = none ↔ 10 ≤ t ∧ t ≤ 40)
      ∧ validar_temperatura_lavado 10 = none
      ∧ validar_temperatura_lavado 40 = none
      ∧ validar_temperatura_lavado (999 / 100) = some .tempLavadoBaja
      ∧ validar_temperatura_lavado (4001 / 100) = some .tempLavadoAlta := by
  refine ⟨fun t => ?_,
    by norm_num [validar_temperatura_lavado, TEMP_MIN_LAVADO, TEMP_MAX_LAVADO],
    by norm_num [validar_temperatura_lavado, TEMP_MIN_LAVADO, TEMP_MAX_LAVADO],
    by norm_num [validar_temperatura_lavado, TEMP_MIN_LAVADO, TEMP_MAX_LAVADO],
    by norm_num [validar_temperatura_lavado, TEMP_MIN_LAVADO, TEMP_MAX_LAVADO]⟩
  unfold validar_temperatura_lavado TEMP_MIN_LAVADO TEMP_MAX_LAVADO
  split_ifs with h1 h2
  · exact iff_of_false (by simp) (by rintro ⟨a, b⟩; linarith)
  · exact iff_of_false (by simp) (by rintro ⟨a, b⟩; linarith)
  · exact iff_of_true rfl ⟨by linarith, by linarith⟩

/-- C2: validar_temperaturas_transporte succeeds iff
2.0 ≤ min ≤ prom ≤ max ≤ 8.0, and the boundary values 2.0 and 8.0 themselves
pass. -/
theorem validar_temperaturas_transporte_correcto :
    (∀ temp_min temp_max temp_prom : ℚ,
        validar_temperaturas_transporte temp_min temp_max temp_prom = none ↔
          2 ≤ temp_min ∧ temp_min ≤ temp_prom ∧ temp_prom ≤ temp_max ∧ temp_max ≤ 8)
      ∧ validar_temperaturas_transporte 2 8 2 = none
      ∧ validar_temperaturas_transporte 2 8 8 = none := by
  refine ⟨fun tmin tmax tprom => ?_,
    by norm_num [validar_temperaturas_transporte, TEMP_MIN_TRANSPORTE, TEMP_MAX_TRANSPORTE],
    by norm_num [validar_temperaturas_transporte, TEMP_MIN_TRANSPORTE, TEMP_MAX_TRANSPORTE]⟩
  unfold validar_temperaturas_transporte TEMP_MIN_TRANSPORTE TEMP_MAX_TRANSPORTE
  split_ifs with h1 h2 h3 h4 h5 h6
  · exact iff_of_false (by simp) (by rintro ⟨a, b, c, d⟩; linarith)
  · exact iff_of_false (by simp) (by rintro ⟨a, b, c, d⟩; linarith)
  · exact iff_of_false (by simp) (by rintro ⟨a, b, c, d⟩; linarith)
  · exact iff_of_false (by simp) (by rintro ⟨a, b, c, d⟩; linarith)
  · exact iff_of_false (by simp) (by rintro ⟨a, b, c, d⟩; linarith)
  · exact iff_of_false (by simp)
      (by rcases h6 with h | h <;> rintro ⟨a, b, c, d⟩ <;> linarith)
  · push_neg at h6
    exact iff_of_true rfl ⟨by linarith, h6.1, h6.2, by linarith⟩

/-- C3: validar_fechas_transporte succeeds iff delivery is not before
departure and the duration is between one minute and 72 hours inclusive;
exactly 72 hours and exactly one minute pass, 72 hours plus one second
fails. -/
theorem validar_fechas_transporte_correcto :
    (∀ fecha_salida fecha_entrega : ℤ,
        validar_fechas_transporte fecha_salida fecha_entrega = none ↔
          fecha_salida ≤ fecha_entrega
            ∧ unMinuto ≤ fecha_entrega - fecha_salida
            ∧ fecha_entrega - fecha_salida ≤ setentaYDosHoras)
      ∧ validar_fechas_transporte 0 setentaYDosHoras = none
      ∧ validar_fechas_transporte 0 unMinuto = none
      ∧ validar_fechas_transporte 0 (setentaYDosHoras + 1000000)
          = some .transporteExcede72h := by
  refine ⟨fun s e => ?_, by decide, by decide, by decide⟩
  unfold validar_fechas_transporte unMinuto setentaYDosHoras
  split_ifs with h1 h2 h3
  · exact iff_of_false (by simp) (by omega)
  · exact iff_of_false (by simp) (by omega)
  · exact iff_of_false (by simp) (by omega)
  · exact iff_of_true rfl (by omega)

/-- C8: validar_fecha_cosecha fails iff the harvest date is strictly after
the current date (date-only comparison); a harvest date equal to today
passes. -/
theorem validar_fecha_cosecha_correcto :
    ∀ fecha_cosecha hoy : ℤ,
      ((validar_fecha_cosecha fecha_cosecha hoy).isSome = true ↔ hoy < fecha_cosecha)
        ∧ validar_fecha_cosecha hoy hoy = none := by
  intro fecha hoy
  constructor
  · unfold validar_fecha_cosecha
    split_ifs with h
    · exact iff_of_true rfl h
    · exact iff_of_false (by simp) h
  · unfold validar_fecha_cosecha
    simp

/-- C6: validar_codigo_lote fails iff the code is empty, shorter than three
characters, or does not start with a letter; "AB" fails, "A12" passes,
"1AB" fails. -/
theorem validar_codigo_lote_correcto :
    (∀ s : String,
        (validar_codigo_lote s).isSome = true ↔
          s = "" ∨ s.length < 3 ∨ pyIsAlpha (s.get 0) = false)
      ∧ (validar_codigo_lote "AB").isSome = true
      ∧ validar_codigo_lote "A12" = none
      ∧ (validar_codigo_lote "1AB").isSome = true := by
  refine ⟨fun s => ?_, by decide, by decide, by decide⟩
  unfold validar_codigo_lote
  split_ifs with h1 h2 h3
  · exact iff_of_true rfl (Or.inl h1)
  · exact iff_of_true rfl (Or.inr (Or.inl h2))
  · exact iff_of_true rfl (Or.inr (Or.inr (by simpa using h3)))
  · refine iff_of_false (by simp) ?_
    rintro (h | h | h)
    · exact h1 h
    · exact h2 h
    · exact h3 (by simp [h])

/-- C9: the first-character rule of validar_codigo_lote uses the Unicode
letter test of Python str.isalpha, not the ASCII-only Char.isAlpha: every
string of length at least three whose first character satisfies pyIsAlpha
passes, and in particular codes starting with the non-ASCII letters Ñ and é
pass even though Char.isAlpha rejects those characters. -/
theorem validar_codigo_lote_unicode :
    (∀ s : String, 3 ≤ s.length → pyIsAlpha (s.get 0) = true →
        validar_codigo_lote s = none)
      ∧ validar_codigo_lote "ÑA1" = none
      ∧ validar_codigo_lote "éxito" = none
      ∧ pyIsAlpha 'Ñ' = true ∧ pyIsAlpha 'é' = true
      ∧ Char.isAlpha 'Ñ' = false ∧ Char.isAlpha 'é' = false := by
  refine ⟨fun s h3 halpha => ?_, by decide, by decide, by decide, by decide,
    by decide, by decide⟩
  unfold validar_codigo_lote
  rw [if_neg, if_neg, if_neg]
  · simp [halpha]
  · omega
  · intro he
    rw [he] at h3
    simp at h3

/-- Closed witness for C9 at a concrete non-ASCII lot code. -/
theorem validar_codigo_lote_unicode_witness : validar_codigo_lote "ÑA1" = none :=
  validar_codigo_lote_unicode.1 "ÑA1" (by decide) (by decide)

/-- C5: validar_trazabilidad_completa succeeds iff the two referential links
and the two temporal conditions all hold, and its checks run in the fixed
source order (referential lot link, referential transformation link, wash
after harvest, departure after quality control), the first violated check
determining the reported reason even when later data also disagrees. -/
theorem validar_trazabilidad_completa_orden :
    ∀ (lote : LoteCultivo) (tr : Transformacion) (lg : Logistica),
      (validar_trazabilidad_completa lote tr lg = none ↔
          tr.lote_id = lote.id ∧ lg.transformacion_id = tr.id
            ∧ lote.fecha_cosecha ≤ fechaDe tr.fecha_lavado
            ∧ tr.fecha_control_calidad ≤ lg.fecha_salida)
        ∧ (tr.lote_id ≠ lote.id →
            validar_trazabilidad_completa lote tr lg = some .transformacionNoDelLote)
        ∧ (tr.lote_id = lote.id → lg.transformacion_id ≠ tr.id →
            validar_trazabilidad_completa lote tr lg = some .logisticaNoDeTransformacion)
        ∧ (tr.lote_id = lote.id → lg.transformacion_id = tr.id →
            fechaDe tr.fecha_lavado < lote.fecha_cosecha →
            validar_trazabilidad_completa lote tr lg = some .lavadoAntesCosecha)
        ∧ (tr.lote_id = lote.id → lg.transformacion_id = tr.id →
            lote.fecha_cosecha ≤ fechaDe tr.fecha_lavado →
            lg.fecha_salida < tr.fecha_control_calidad →
            validar_trazabilidad_completa lote tr lg = some .salidaAntesControl) := by
  intro lote tr lg
  refine ⟨?_, ?_, ?_, ?_, ?_⟩ <;> unfold validar_trazabilidad_completa
  · split_ifs with h1 h2 h3 h4
    · exact iff_of_false (by simp) (fun h => absurd h.1 h1)
    · exact iff_of_false (by simp) (fun h => absurd h.2.1 h2)
    · exact iff_of_false (by simp) (fun h => absurd h.2.2.1 (not_le.mpr h3))
    · exact iff_of_false (by simp) (fun h => absurd h.2.2.2 (not_le.mpr h4))
    · exact iff_of_true rfl
        ⟨not_not.mp h1, not_not.mp h2, not_lt.mp h3, not_lt.mp h4⟩
  · intro h; rw [if_pos h]
  · intro h1 h2; rw [if_neg (by simp [h1]), if_pos h2]
  · intro h1 h2 h3
    rw [if_neg (by simp [h1]), if_neg (by simp [h2]), if_pos h3]
  · intro h1 h2 h3 h4
    rw [if_neg (by simp [h1]), if_neg (by simp [h2]), if_neg (not_lt.mpr h3),
      if_pos h4]

/-- Closed witness for C5: the referential mismatch is reported even though
the temporal data of the same pairing also disagrees. -/
theorem validar_trazabilidad_completa_orden_witness :
    validar_trazabilidad_completa loteW5 trW5 lgW5 = some .transformacionNoDelLote :=
  (validar_trazabilidad_completa_orden loteW5 trW5 lgW5).2.1 (by decide)

/-- Replacing a character by nothing is exactly filtering it out: every other
character is kept verbatim and in order. -/
theorem pyReplaceChar_nil_eq_filter (old : Char) :
    ∀ l : List Char, pyReplaceChar old [] l = l.filter fun c => c != old
  | [] => rfl
  | c :: cs => by
    by_cases h : c = old <;>
      simp [pyReplaceChar, h, List.filter_cons, pyReplaceChar_nil_eq_filter old cs]

/-- Upper-casing a lowercase hexadecimal digit yields an alphanumeric
character that is not lowercase. -/
theorem toUpper_hex_alnum (c : Char) (h : c ∈ hexMinusculas) :
    (Char.toUpper c).isAlphanum = true ∧ (Char.toUpper c).isLower = false := by
  have hall : hexMinusculas.all
      (fun x => x.toUpper.isAlphanum && !x.toUpper.isLower) = true := by decide
  simp only [List.all_eq_true, Bool.and_eq_true, Bool.not_eq_true'] at hall
  exact hall c h

/-- C1: Logistica.save assigns a traceability code exactly when the code field
is unset (null or empty) and estado is ENTREGADO, in which case the saved code
is TRZ- followed by the lot code with hyphen separators stripped, a hyphen,
and an eight-character upper-cased alphanumeric suffix; a record whose code is
already set is left entirely unchanged regardless of estado, and a record that
is not ENTREGADO is left unchanged. The hypotheses state the shape of
str(uuid.uuid4()): at least eight characters, the first eight lowercase
hexadecimal digits. -/
theorem logistica_save_codigo_trazabilidad (lg : Logistica)
    (lote_codigo uuidStr : String)
    (hlen : 8 ≤ uuidStr.data.length)
    (hhex : ∀ c ∈ uuidStr.data.take 8, c ∈ hexMinusculas) :
    (pyFalsyStr lg.codigo_trazabilidad = true → lg.estado = "ENTREGADO" →
        ∃ sfx : String,
          (Logistica.save lg lote_codigo uuidStr).codigo_trazabilidad
              = some ("TRZ-" ++ String.mk (pyReplaceChar '-' [] lote_codigo.data)
                  ++ "-" ++ sfx)
            ∧ sfx.length = 8
            ∧ ∀ c ∈ sfx.data, c.isAlphanum = true ∧ c.isLower = false)
      ∧ (∀ s : String, lg.codigo_trazabilidad = some s → s ≠ "" →
          Logistica.save lg lote_codigo uuidStr = lg)
      ∧ (lg.estado ≠ "ENTREGADO" → Logistica.save lg lote_codigo uuidStr = lg) := by
  refine ⟨fun hfal hest => ?_, fun s hs hne => ?_, fun hest => ?_⟩
  · refine ⟨sufijoTrazabilidad uuidStr, ?_, ?_, ?_⟩
    · have hcond : (pyFalsyStr lg.codigo_trazabilidad && lg.estado == "ENTREGADO") = true := by
        rw [hfal, hest]; rfl
      unfold Logistica.save
      rw [if_pos hcond]
      rfl
    · show ((uuidStr.data.take 8).map Char.toUpper).length = 8
      rw [List.length_map, List.length_take]
      omega
    · intro c hc
      have hc' : c ∈ (uuidStr.data.take 8).map Char.toUpper := hc
      rcases List.mem_map.mp hc' with ⟨c0, hc0, rfl⟩
      exact toUpper_hex_alnum c0 (hhex c0 hc0)
  · have hie : s.isEmpty = false := by
      cases he : s.isEmpty
      · rfl
      · exact absurd ((String.isEmpty_iff s).mp he) hne
    simp [Logistica.save, pyFalsyStr, hs, hie]
  · have hbe : (lg.estado == "ENTREGADO") = false := beq_eq_false_iff_ne.mpr hest
    simp [Logistica.save, hbe]

/-- Closed witness for C1 at a concrete delivered record and uuid string. -/
theorem logistica_save_codigo_trazabilidad_witness :
    ∃ sfx : String,
      (Logistica.save lgW1 "LOTE-2024-001" "abcdef12-3456-7890").codigo_trazabilidad
          = some ("TRZ-" ++ String.mk (pyReplaceChar '-' [] "LOTE-2024-001".data)
              ++ "-" ++ sfx)
        ∧ sfx.length = 8
        ∧ ∀ c ∈ sfx.data, c.isAlphanum = true ∧ c.isLower = false :=
  (logistica_save_codigo_trazabilidad lgW1 "LOTE-2024-001" "abcdef12-3456-7890"
    (by decide) (by decide)).1 (by decide) (by decide)

/-- C10: when Logistica.save generates a code, only hyphens are removed from
the owning lot code: the part between TRZ- and the final suffix is exactly the
lot code filtered of hyphen characters, so every other character (underscores,
spaces, any non-hyphen separator, with case preserved) appears verbatim and
with its original multiplicity. -/
theorem logistica_save_solo_guiones (lg : Logistica) (lote_codigo uuidStr : String)
    (hfal : pyFalsyStr lg.codigo_trazabilidad = true)
    (hest : lg.estado = "ENTREGADO") :
    (Logistica.save lg lote_codigo uuidStr).codigo_trazabilidad
        = some ("TRZ-" ++ String.mk (lote_codigo.data.filter fun c => c != '-')
            ++ "-" ++ sufijoTrazabilidad uuidStr)
      ∧ ∀ c : Char, c ≠ '-' →
          (lote_codigo.data.filter fun x => x != '-').count c
            = lote_codigo.data.count c := by
  constructor
  · have hcond : (pyFalsyStr lg.codigo_trazabilidad && lg.estado == "ENTREGADO") = true := by
      rw [hfal, hest]; rfl
    unfold Logistica.save
    rw [if_pos hcond]
    simp only [generarCodigoTrazabilidad, pyReplaceChar_nil_eq_filter]
  · intro c hc
    exact List.count_filter (by simpa using hc)

/-- Closed witness for C10 at a lot code containing an underscore, a space
and a hyphen: only the hyphen disappears. -/
theorem logistica_save_solo_guiones_witness :
    (Logistica.save lgW10 "A_B C-D" "00112233-4455").codigo_trazabilidad
        = some ("TRZ-" ++ String.mk ("A_B C-D".data.filter fun c => c != '-')
            ++ "-" ++ sufijoTrazabilidad "00112233-4455")
      ∧ ∀ c : Char, c ≠ '-' →
          ("A_B C-D".data.filter fun x => x != '-').count c
            = "A_B C-D".data.count c :=
  logistica_save_solo_guiones lgW10 "A_B C-D" "00112233-4455" (by decide) rfl

/-- C7 counterexample: a single correctly linked pairing that violates both
temporal chain conditions; the departure-before-quality-control violation is
among that pairing's chain-invariant violations yet absent from the set
returned by the diagnostic view, which keeps only the first violation of each
pairing. -/
theorem trazabilidad_diagnostico_counterexample :
    trC7.lote_id = loteC7.id
      ∧ lgC7.transformacion_id = trC7.id
      ∧ RazonValidacion.salidaAntesControl ∈ violacionesCadena loteC7 trC7 lgC7
      ∧ RazonValidacion.salidaAntesControl ∉
          trazabilidad_completa_errores loteC7 [trC7] [lgC7] := by
  decide

/-- C7 amended: the diagnostic view never aborts; it returns, for every
(transformation, logistics) pairing under the lot, the first violation of each
failing pairing — every failing pairing contributes its first violation to the
returned set, and every element of the returned set is the first violation of
some pairing — but later violations of an already-failing pairing are not
included. -/
theorem trazabilidad_diagnostico_amended (lote : LoteCultivo)
    (transformaciones : List Transformacion) (logisticas : List Logistica) :
    (∀ tr ∈ transformaciones, ∀ lg ∈ logisticas, lg.transformacion_id = tr.id →
        ∀ r, validar_trazabilidad_completa lote tr lg = some r →
          r ∈ trazabilidad_completa_errores lote transformaciones logisticas)
      ∧ (∀ r ∈ trazabilidad_completa_errores lote transformaciones logisticas,
          ∃ tr ∈ transformaciones, ∃ lg ∈ logisticas,
            lg.transformacion_id = tr.id
              ∧ validar_trazabilidad_completa lote tr lg = some r) := by
  constructor
  · intro tr htr lg hlg hlink r hval
    unfold trazabilidad_completa_errores
    rw [if_neg]
    · exact List.mem_flatMap.mpr ⟨tr, htr,
        List.mem_filterMap.mpr ⟨lg, List.mem_filter.mpr ⟨hlg, by simp [hlink]⟩, hval⟩⟩
    · simp only [Bool.or_eq_true, not_or, Bool.not_eq_true, List.isEmpty_eq_false]
      exact ⟨List.ne_nil_of_mem htr, List.ne_nil_of_mem hlg⟩
  · intro r hr
    unfold trazabilidad_completa_errores at hr
    by_cases hguard : (transformaciones.isEmpty || logisticas.isEmpty) = true
    · rw [if_pos hguard] at hr; cases hr
    · rw [if_neg hguard] at hr
      rcases List.mem_flatMap.mp hr with ⟨tr, htr, hmem⟩
      rcases List.mem_filterMap.mp hmem with ⟨lg, hlgf, hval⟩
      rcases List.mem_filter.mp hlgf with ⟨hlg, hlink⟩
      exact ⟨tr, htr, lg, hlg, by simpa using hlink, hval⟩

/-- Closed witness for the amended C7: the failing pairing's first violation
does appear in the diagnostic result. -/
theorem trazabilidad_diagnostico_amended_witness :
    RazonValidacion.lavadoAntesCosecha ∈
      trazabilidad_completa_errores loteC7 [trC7] [lgC7] :=
  (trazabilidad_diagnostico_amended loteC7 [trC7] [lgC7]).1 trC7 (by decide)
    lgC7 (by decide) (by decide) RazonValidacion.lavadoAntesCosecha (by decide)
